import Mathlib

/-!
Verification of the headless authoritative game-server core (`_headlessEx`).

This file gives a shallow embedding of the parts of the TypeScript source
that the checked properties are about:

* `src/server/server.ts` — the per-tick movement pass `updateEntities`,
  the snapshot built in `MainScene.onPreUpdate`, and `unsubscribeUser`;
* `src/server/Actor/ClientActor.ts` — `onCollisionStart` overlap resolution,
  `onCollisionEnd`, and the actor-level `onPreUpdate` position sync;
* `src/server/HeadlessEx/Scene.ts` — `Scene.update` ordering and
  `Scene._initialize`;
* `src/server/HeadlessEx/Director/Director.ts` — `swapScene`, `goToScene`,
  `remove`, `onInitialize`;
* `src/server/HeadlessEx/Engine.ts` — the fixed-timestep `_mainloop`.

Positions and sizes are embedded as integers (the program only ever adds
and subtracts integer pixel amounts in the modelled paths); clock arithmetic
in `_mainloop` is embedded over `ℚ`.  Where a needed piece of the engine is
not part of the provided source (the collision system's detection and side
determination, which live under `HeadlessEx/Collision/`), the definition is
modelled from the specification and marked as such in its doc comment.

The file is organised as definitions first, then all theorems.
-/

/-- The contact side enum (`HeadlessEx/Collision/Side`), as used by
`server.ts` and `ClientActor.ts`: `Side.Top` means the other collider is in
contact with the top face of this actor. -/
inductive Side where
  | None
  | Top
  | Bottom
  | Left
  | Right
deriving DecidableEq, Repr

/-- 2-D integer vector, standing in for `HeadlessEx/Math/vector.ts`'s
`Vector` as used by `Actor.pos`. -/
structure Vec2 where
  x : ℤ
  y : ℤ
deriving DecidableEq, Repr

/-- The `Types.Quat` record used as `ClientActor.position`
(`{x, y, z, w}`, with `z` and `w` always zero in this program). -/
structure Quat where
  x : ℤ
  y : ℤ
  z : ℤ
  w : ℤ
deriving DecidableEq, Repr

/-- `ClientActor.collisionData` (src/server/Actor/ClientActor.ts lines
13-17); the `other` participant reference is dropped because no modelled
code path reads it. -/
structure CollisionData where
  isColliding : Bool
  collisionDirection : Side
deriving DecidableEq, Repr

/-- The fields of `ClientActor` (src/server/Actor/ClientActor.ts) that the
modelled code paths read or write: the actor-base spatial fields `pos`,
`width`, `height` plus the subclass fields `uuid`, `directions`, `speed`,
`position` and `collisionData`. -/
structure ClientActor where
  name : String
  uuid : String
  directions : List String
  collisionData : CollisionData
  speed : ℤ
  width : ℤ
  height : ℤ
  pos : Vec2
  position : Quat
deriving DecidableEq, Repr

/-- `const playerSpeed = 4` (src/server/server.ts line 12). -/
def playerSpeed : ℤ := 4

/-- The `"right"` block of `updateEntities` (server.ts lines 250-253).
Returns the updated actor and a flag that is `true` when the TypeScript
`return` statement fired (aborting the whole `updateEntities` call). -/
def moveRight (pEnt : ClientActor) : ClientActor × Bool :=
  if pEnt.directions.contains "right" then
    if pEnt.collisionData.isColliding = true ∧ pEnt.collisionData.collisionDirection = Side.Right then
      (pEnt, true)
    else
      ({ pEnt with position := { pEnt.position with x := pEnt.position.x + playerSpeed } }, false)
  else (pEnt, false)

/-- The `"left"` block of `updateEntities` (server.ts lines 246-249),
followed by the `"right"` block. -/
def moveLeft (pEnt : ClientActor) : ClientActor × Bool :=
  if pEnt.directions.contains "left" then
    if pEnt.collisionData.isColliding = true ∧ pEnt.collisionData.collisionDirection = Side.Left then
      (pEnt, true)
    else
      moveRight { pEnt with position := { pEnt.position with x := pEnt.position.x - playerSpeed } }
  else moveRight pEnt

/-- The `"down"` block of `updateEntities` (server.ts lines 242-245),
followed by the `"left"` and `"right"` blocks. -/
def moveDown (pEnt : ClientActor) : ClientActor × Bool :=
  if pEnt.directions.contains "down" then
    if pEnt.collisionData.isColliding = true ∧ pEnt.collisionData.collisionDirection = Side.Bottom then
      (pEnt, true)
    else
      moveLeft { pEnt with position := { pEnt.position with y := pEnt.position.y + playerSpeed } }
  else moveLeft pEnt

/-- The per-player body of `updateEntities` (server.ts lines 237-254):
the `"up"` block followed by the `"down"`, `"left"`, `"right"` blocks.
The second component is `true` exactly when one of the four `return`
statements executed, which in the source aborts the whole movement pass. -/
def movePlayer (pEnt : ClientActor) : ClientActor × Bool :=
  if pEnt.directions.length > 0 then
    if pEnt.directions.contains "up" then
      if pEnt.collisionData.isColliding = true ∧ pEnt.collisionData.collisionDirection = Side.Top then
        (pEnt, true)
      else
        moveDown { pEnt with position := { pEnt.position with y := pEnt.position.y - playerSpeed } }
    else moveDown pEnt
  else (pEnt, false)

/-- Replace the first entity whose `uuid` matches (the source mutates the
single object returned by `entities.find`). -/
def setFirstByUuid (u : String) (e' : ClientActor) : List ClientActor → List ClientActor
  | [] => []
  | x :: xs => if x.uuid = u then e' :: xs else x :: setFirstByUuid u e' xs

/-- `updateEntities` (src/server/server.ts lines 228-256): iterate the
room's `players` list in order (identified by their `id`/`uuid`), find the
matching scene entity and apply the movement blocks.  `none` models the
TypeScript crash when `find` returns `undefined`; a `return` inside a
player's movement blocks (second component of `movePlayer`) stops
processing of that player's remaining directions and of every
later-processed player. -/
def updateEntities : List String → List ClientActor → Option (List ClientActor)
  | [], ents => some ents
  | u :: rest, ents =>
    match ents.find? (fun e => e.uuid == u) with
    | none => none
    | some e =>
      let r := movePlayer e
      let ents' := setFirstByUuid u r.1 ents
      if r.2 then some ents' else updateEntities rest ents'

/-- Player 1 for the C1 failing input: held directions `up` and `left`,
currently colliding with `collisionDirection == Side.Top`. -/
def blockedPlayer : ClientActor :=
  { name := "p1", uuid := "p1", directions := ["up", "left"],
    collisionData := { isColliding := true, collisionDirection := Side.Top },
    speed := 4, width := 24, height := 24,
    pos := { x := 50, y := 50 }, position := { x := 50, y := 50, z := 0, w := 0 } }

/-- Player 2 for the C1 failing input: processed after player 1, held
direction `right`, not colliding at all. -/
def laterPlayer : ClientActor :=
  { name := "p2", uuid := "p2", directions := ["right"],
    collisionData := { isColliding := false, collisionDirection := Side.None },
    speed := 4, width := 24, height := 24,
    pos := { x := 10, y := 10 }, position := { x := 10, y := 10, z := 0, w := 0 } }

/-- An axis-aligned box given by its position and extents, standing in for
the `Fixed` other participant (`NPCActor`, box 24×24) and for broad-phase
boxes generally. -/
structure StaticBox where
  x : ℤ
  y : ℤ
  width : ℤ
  height : ℤ
deriving DecidableEq, Repr

/-- The AABB spanned by a `ClientActor`'s `pos`/`width`/`height`. -/
def actorBox (p : ClientActor) : StaticBox :=
  { x := p.pos.x, y := p.pos.y, width := p.width, height := p.height }

/-- Modelled from the spec: the collision system's AABB overlap test is in
`HeadlessEx/Collision/` which is not among the provided sources; §4.5 says
each tick every mask-compatible collider pair is tested for AABB overlap. -/
def boxesOverlap (a b : StaticBox) : Bool :=
  decide (a.x < b.x + b.width ∧ b.x < a.x + a.width
    ∧ a.y < b.y + b.height ∧ b.y < a.y + a.height)

/-- Modelled from the spec: the collision system's side determination is in
`HeadlessEx/Collision/` which is not among the provided sources; §4.5:
"the side with minimum penetration depth along an axis wins; ties are
resolved by axis priority (vertical before horizontal)".  The returned side
is the face of `self` that is in contact (so `Side.Top` means the other box
is above `self`, matching the `Side.Top` gate of upward movement in
`updateEntities`). -/
def contactSide (self other : StaticBox) : Side :=
  if boxesOverlap self other then
    let penX := min (self.x + self.width) (other.x + other.width) - max self.x other.x
    let penY := min (self.y + self.height) (other.y + other.height) - max self.y other.y
    if penY ≤ penX then
      if self.y < other.y then Side.Bottom else Side.Top
    else
      if self.x < other.x then Side.Right else Side.Left
  else Side.None

/-- `ClientActor.onCollisionStart` (src/server/Actor/ClientActor.ts lines
57-87): record the collision state, compute the exact overlap along the
contact axis and snap `pos` and `position` back by that (signed) amount. -/
def onCollisionStart (self : ClientActor) (otherActor : StaticBox) (side : Side) : ClientActor :=
  let s := { self with collisionData := { isColliding := true, collisionDirection := side } }
  match side with
  | Side.None => s
  | Side.Top =>
    let overlap := otherActor.y + otherActor.height - s.pos.y
    { s with pos := { x := s.position.x, y := s.position.y + overlap },
             position := { s.position with y := s.position.y + overlap } }
  | Side.Bottom =>
    let overlap := otherActor.y - (s.pos.y + s.height)
    { s with pos := { x := s.position.x, y := s.position.y + overlap },
             position := { s.position with y := s.position.y + overlap } }
  | Side.Left =>
    let overlap := otherActor.x + otherActor.width - s.pos.x
    { s with pos := { x := s.position.x + overlap, y := s.position.y },
             position := { s.position with x := s.position.x + overlap } }
  | Side.Right =>
    let overlap := otherActor.x - (s.pos.x + s.width)
    { s with pos := { x := s.position.x + overlap, y := s.position.y },
             position := { s.position with x := s.position.x + overlap } }

/-- `ClientActor.onCollisionEnd` (src/server/Actor/ClientActor.ts lines
89-93): clear the collision state. -/
def onCollisionEnd (self : ClientActor) : ClientActor :=
  { self with collisionData := { isColliding := false, collisionDirection := Side.None } }

/-- `ClientActor.onPreUpdate` (src/server/Actor/ClientActor.ts lines
99-101): re-derive the authoritative `pos` from `position` every tick. -/
def clientActorOnPreUpdate (p : ClientActor) : ClientActor :=
  { p with pos := { x := p.position.x, y := p.position.y } }

/-- A one-player, one-NPC room, the smallest configuration exercising the
tick pipeline of `Scene.update` for `MainScene`. -/
structure MiniScene where
  player : ClientActor
  npc : StaticBox
deriving DecidableEq, Repr

/-- The collision system pass for the mini scene.  Event dispatch is
modelled from the spec (§4.5: "on new overlap, fire `onCollisionStart`
with the contact side; on continued overlap, no event; on overlap ending,
fire `onCollisionEnd`" — the `Collision/` sources are not provided), with
"new overlap" tracked through the player's own `isColliding` flag; the
fired callbacks are the source-translated `onCollisionStart` and
`onCollisionEnd` above.  The `Fixed` NPC is never moved (§4.5). -/
def collisionPass (sc : MiniScene) : MiniScene :=
  let a := actorBox sc.player
  if boxesOverlap a sc.npc then
    if sc.player.collisionData.isColliding = false then
      { sc with player := onCollisionStart sc.player sc.npc (contactSide a sc.npc) }
    else sc
  else
    if sc.player.collisionData.isColliding = true then
      { sc with player := onCollisionEnd sc.player }
    else sc

/-- One `Scene.update` tick of the mini scene, following
src/server/HeadlessEx/Scene.ts lines 293-318: `_preupdate` runs first —
for `MainScene` (src/server/server.ts lines 51-73) this is
`updateEntities` (here: `movePlayer`) followed by building the broadcast
snapshot from the entity's `pos` — and only then `world.update` runs the
systems: the actor-level `onPreUpdate` sync (`pos := position`) and the
collision pass.  Returns the post-tick scene and the snapshot position
that was broadcast during the tick. -/
def sceneTick (sc : MiniScene) : MiniScene × Quat :=
  let moved := (movePlayer sc.player).1
  let snapshot : Quat := { x := moved.pos.x, y := moved.pos.y, z := 0, w := 0 }
  let synced := clientActorOnPreUpdate moved
  let resolved := collisionPass { sc with player := synced }
  (resolved, snapshot)

/-- The C5 scenario: a `Passive` 24×24 `ClientActor` at (100,100) holding
"down" (its per-tick speed is `playerSpeed = 4`). -/
def fallingPlayer : ClientActor :=
  { name := "p", uuid := "p", directions := ["down"],
    collisionData := { isColliding := false, collisionDirection := Side.None },
    speed := 4, width := 24, height := 24,
    pos := { x := 100, y := 100 }, position := { x := 100, y := 100, z := 0, w := 0 } }

/-- The C5 `Fixed` actor: a 24×24 box at (100,124). -/
def fixedNpcAt124 : StaticBox := { x := 100, y := 124, width := 24, height := 24 }

/-- The C2 `Fixed` actor: a 24×24 box at (100,126), two pixels lower, so
that this tick's resolution leaves the player at y = 102, a value distinct
from both the pre-tick (100) and pre-resolution (104) positions. -/
def fixedNpcAt126 : StaticBox := { x := 100, y := 126, width := 24, height := 24 }

/-- Scene identifiers: each registered `Scene` instance (or the instance a
registered constructor produces) is modelled by a numeric identity,
standing in for JavaScript object identity. -/
abbrev SceneId := ℕ

/-- The lifecycle-relevant state of one `Scene` instance as the `Director`
sees it (src/server/HeadlessEx/Scene.ts): its `_isInitialized` flag plus
counters for the user lifecycle hooks the Director invokes, and the
activation data most recently passed to `_activate`. -/
structure SceneM where
  isInitialized : Bool := false
  initCount : ℕ := 0
  activateCount : ℕ := 0
  deactivateCount : ℕ := 0
  lastActivationData : Option ℕ := none
deriving DecidableEq, Repr

/-- Observable events of a `Director` navigation, in execution order.  Each
lifecycle call records the value of `currentSceneName` at the moment the
call happens, so that pointer/lifecycle interleaving is visible in the
trace; `pointerSet` marks the assignment of `currentScene` /
`currentSceneName` (Director.ts lines 346-347). -/
inductive LifeEvent where
  | deactivateCall (scene : SceneId) (pointerAtCall : String)
  | pointerSet (destName : String)
  | initializeCall (scene : SceneId) (pointerAtCall : String)
  | activateCall (scene : SceneId) (data : Option ℕ) (pointerAtCall : String)
  | logError (sceneName : String)
  | logWarn (sceneName : String)
  | navStart (source dest : String)
  | navigation (source dest : String)
  | navEnd (source dest : String)
deriving DecidableEq, Repr

/-- First-binding association lookup, the semantics of both the `scenes`
object and the `_sceneToInstance` map of the `Director` (string keys are
unique in a JavaScript object / `Map`). -/
def assocFind {κ α : Type} [DecidableEq κ] : List (κ × α) → κ → Option α
  | [], _ => none
  | (k, v) :: xs, key => if k = key then some v else assocFind xs key

/-- Read a scene's state out of the instance store (fresh default state if
the identity is unknown). -/
def sceneOf (st : List (SceneId × SceneM)) (k : SceneId) : SceneM :=
  (assocFind st k).getD {}

/-- Update (or create) the state of the scene with identity `k`. -/
def storeUpdate (k : SceneId) (f : SceneM → SceneM) : List (SceneId × SceneM) → List (SceneId × SceneM)
  | [] => [(k, f {})]
  | (k', s) :: xs => if k' = k then (k', f s) :: xs else (k', s) :: storeUpdate k f xs

/-- The `Director` state (src/server/HeadlessEx/Director/Director.ts):
`registry` models the `scenes` map (name → registered scene value),
`cache` models `_sceneToInstance`, `store` holds each scene instance's
lifecycle state, and `trace` accumulates the observable events.  Scene
constructors are modelled as eager instances: `getSceneInstance` caches
the registered value on first access, which is identical for the
instance-registered case and observationally equivalent for the
constructor case in every modelled path. -/
structure DirectorM where
  registry : List (String × SceneId)
  cache : List (String × SceneId)
  store : List (SceneId × SceneM)
  currentSceneName : String
  currentScene : SceneId
  initialized : Bool
  deferredGoto : Option String
  trace : List LifeEvent
deriving DecidableEq, Repr

/-- The resolution part of `Director.getSceneInstance` (Director.ts lines
301-316): `undefined` when the name has no registry entry, otherwise the
cached instance if present, else the registered value. -/
def resolveScene (d : DirectorM) (scene : String) : Option SceneId :=
  match assocFind d.registry scene with
  | none => none
  | some sid =>
    match assocFind d.cache scene with
    | some cached => some cached
    | none => some sid

/-- The caching side effect of `Director.getSceneInstance`: on first
successful access the resolved instance is recorded in
`_sceneToInstance`. -/
def cacheScene (d : DirectorM) (scene : String) : DirectorM :=
  match assocFind d.registry scene with
  | none => d
  | some sid =>
    match assocFind d.cache scene with
    | some _ => d
    | none => { d with cache := d.cache ++ [(scene, sid)] }

/-- Phase 1 of `Director.swapScene` (Director.ts lines 338-343): `// only
deactivate when initialized` — when the current scene is initialized, run
its `_deactivate` and emit the `deactivate` event, recorded together as
one `deactivateCall`. -/
def deactivateStep (d : DirectorM) : DirectorM :=
  if (sceneOf d.store d.currentScene).isInitialized = true then
    { d with
      store := storeUpdate d.currentScene
        (fun s => { s with deactivateCount := s.deactivateCount + 1 }) d.store,
      trace := d.trace ++ [LifeEvent.deactivateCall d.currentScene d.currentSceneName] }
  else d

/-- Phase 2 of `Director.swapScene` (Director.ts lines 345-347): `// set
current scene to new one` — assign `currentScene` and `currentSceneName`. -/
def pointerStep (d : DirectorM) (destinationScene : String) (destId : SceneId) : DirectorM :=
  { d with
    currentScene := destId, currentSceneName := destinationScene,
    trace := d.trace ++ [LifeEvent.pointerSet destinationScene] }

/-- Phase 3 of `Director.swapScene` (Director.ts lines 349-350):
`await this.currentScene._initialize(engine)` — running against the
already-swapped `currentScene` pointer; the `Scene._initialize` guard
makes it a no-op when the scene is already initialized. -/
def initializeStep (d : DirectorM) : DirectorM :=
  if (sceneOf d.store d.currentScene).isInitialized = false then
    { d with
      store := storeUpdate d.currentScene
        (fun s => { s with isInitialized := true, initCount := s.initCount + 1 }) d.store,
      trace := d.trace ++ [LifeEvent.initializeCall d.currentScene d.currentSceneName] }
  else d

/-- Phase 4 of `Director.swapScene` (Director.ts lines 352-354):
`await this.currentScene._activate(context)` with the caller's `data`,
plus the `activate` event. -/
def activateStep (d : DirectorM) (data : Option ℕ) : DirectorM :=
  { d with
    store := storeUpdate d.currentScene
      (fun s => { s with activateCount := s.activateCount + 1, lastActivationData := data }) d.store,
    trace := d.trace ++ [LifeEvent.activateCall d.currentScene data d.currentSceneName] }

/-- `Director.swapScene` (Director.ts lines 323-358).  If the director is
not yet initialized, only `_deferredGoto` is recorded (note: the supplied
`data` is not stored).  Otherwise: resolve the destination (logging an
error when unknown), then run the four phases in the source's order:
deactivate the current scene when it is initialized, set the
`currentScene`/`currentSceneName` pointers, run the destination's
`_initialize` (first time only), and `_activate` it with the data. -/
def swapScene (d : DirectorM) (destinationScene : String) (data : Option ℕ) : DirectorM :=
  if d.initialized = false then
    { d with deferredGoto := some destinationScene }
  else
    match resolveScene d destinationScene with
    | none =>
      { d with trace := d.trace ++ [LifeEvent.logError destinationScene] }
    | some destId =>
      activateStep
        (initializeStep (pointerStep (deactivateStep (cacheScene d destinationScene))
          destinationScene destId)) data

/-- `Director.goToScene` (Director.ts lines 269-293): resolve the
destination first — an unknown name is logged with a warning and the
navigation aborts before any event or lifecycle work — otherwise emit
`navigationstart`, run `swapScene`, then emit `navigation` and
`navigationend` (the source name is captured before the swap).
`Engine.goToScene` (Engine.ts lines 511-515) delegates directly here. -/
def goToScene (d : DirectorM) (destinationScene : String) (data : Option ℕ) : DirectorM :=
  match resolveScene d destinationScene with
  | none =>
    { d with trace := d.trace ++ [LifeEvent.logWarn destinationScene] }
  | some _ =>
    let sourceScene := d.currentSceneName
    let d1 := { d with trace := d.trace ++ [LifeEvent.navStart sourceScene destinationScene] }
    let d2 := swapScene d1 destinationScene data
    { d2 with trace := d2.trace
        ++ [LifeEvent.navigation sourceScene destinationScene,
            LifeEvent.navEnd sourceScene destinationScene] }

/-- `Director.onInitialize` (Director.ts lines 107-118): flip
`_initialized`, then perform the deferred navigation — calling `swapScene`
with the destination name only, i.e. with no activation data — or default
to the `"root"` scene. -/
def directorOnInitialize (d : DirectorM) : DirectorM :=
  if d.initialized = false then
    let d1 := { d with initialized := true }
    match d1.deferredGoto with
    | some deferredScene => swapScene { d1 with deferredGoto := none } deferredScene none
    | none => swapScene d1 "root" none
  else d

/-- The argument of `Director.remove`: a registered name, or a scene
instance / constructor value. -/
inductive RemoveArg where
  | byName (s : String)
  | byRef (i : SceneId)
deriving DecidableEq, Repr

/-- The `for (const key in this.scenes)` loop of `Director.remove`
(Director.ts lines 230-250) for a scene value argument: walk the registry
in order; a matching entry whose key is the current scene name throws
(returning the remaining registry untouched and the throw flag); other
matching entries are deleted from the cache and the registry.  Returns the
final cache, the final registry, and whether the loop threw. -/
def removeByRefGo (i : SceneId) (cur : String) :
    List (String × SceneId) → List (String × SceneId) →
    List (String × SceneId) × List (String × SceneId) × Bool
  | cache, [] => (cache, [], false)
  | cache, (k, v) :: rest =>
    if v = i then
      if k = cur then (cache, (k, v) :: rest, true)
      else removeByRefGo i cur (cache.filter (fun kv => !(kv.1 == k))) rest
    else
      let r := removeByRefGo i cur cache rest
      (r.1, (k, v) :: r.2.1, r.2.2)

/-- `Director.remove` (Director.ts lines 226-262).  The `Bool` result is
`true` when the call threw (`Cannot remove a currently active scene`);
mutations performed before a throw persist, as they do on the in-place
mutated JavaScript object. -/
def directorRemove (d : DirectorM) (arg : RemoveArg) : DirectorM × Bool :=
  match arg with
  | RemoveArg.byRef i =>
    let r := removeByRefGo i d.currentSceneName d.cache d.registry
    ({ d with cache := r.1, registry := r.2.1 }, r.2.2)
  | RemoveArg.byName s =>
    if s = d.currentSceneName then (d, true)
    else
      ({ d with
         cache := d.cache.filter (fun kv => !(kv.1 == s)),
         registry := d.registry.filter (fun kv => !(kv.1 == s)) }, false)

/-- The state touched by `Scene._initialize`
(src/server/HeadlessEx/Scene.ts lines 215-237): the `_isInitialized`
guard, the engine back-reference and physics config assignment, the system
manager initialization, and counters for the user `onInitialize` override,
the children initialization pass and the `initialize` event. -/
structure SceneInitState where
  isInitialized : Bool := false
  engineRef : Option ℕ := none
  physicsConfigured : Bool := false
  systemsInitialized : Bool := false
  onInitializeCount : ℕ := 0
  childrenInitPasses : ℕ := 0
  initializeEvents : ℕ := 0
deriving DecidableEq, Repr

/-- `Scene._initialize(engine)` on its non-throwing path (Scene.ts lines
215-237): when not yet initialized, set the engine reference and physics
config, initialize the system manager, run the user `onInitialize`, then
the children pass, then emit the `initialize` event, and finally set
`_isInitialized`; when already initialized, do nothing. -/
def sceneInitialize (engine : ℕ) (s : SceneInitState) : SceneInitState :=
  if s.isInitialized = false then
    { isInitialized := true, engineRef := some engine, physicsConfigured := true,
      systemsInitialized := true, onInitializeCount := s.onInitializeCount + 1,
      childrenInitPasses := s.childrenInitPasses + 1,
      initializeEvents := s.initializeEvents + 1 }
  else s

/-- The `while (this._lagMs >= fixedTimestepMs)` catch-up loop of
`Engine._mainloop` (src/server/HeadlessEx/Engine.ts lines 624-627),
written with an explicit iteration budget `fuel` (the source loop is
unbounded; every theorem below supplies enough fuel for the loop to reach
its exit condition).  Returns the remaining lag and the number of
`_update(fixedTimestepMs)` calls performed. -/
def catchUpLoop : ℕ → ℚ → ℚ → ℚ × ℕ
  | 0, _, lag => (lag, 0)
  | fuel + 1, fixedTimestepMs, lag =>
    if fixedTimestepMs ≤ lag then
      let r := catchUpLoop fuel fixedTimestepMs (lag - fixedTimestepMs)
      (r.1, r.2 + 1)
    else (lag, 0)

/-- `Engine._mainloop(elapsed)` (Engine.ts lines 617-633): scale the real
elapsed time by the timescale; with a fixed update timestep configured,
add it to `_lagMs` and run the catch-up loop; otherwise perform a single
`_update(elapsedMs)`.  The source guard `if (this.fixedUpdateTimestep)` is
a JavaScript truthiness test, falsy for both `undefined` and `0`; `none`
models the falsy case, and every theorem below uses a strictly positive
timestep.  Returns the new `_lagMs` and the number of `_update` calls this
invocation produced. -/
def engineMainloop (fuel : ℕ) (fixedUpdateTimestep : Option ℚ) (timescale lagMs elapsed : ℚ) :
    ℚ × ℕ :=
  let elapsedMs := elapsed * timescale
  match fixedUpdateTimestep with
  | some fixedTimestepMs => catchUpLoop fuel fixedTimestepMs (lagMs + elapsedMs)
  | none => (lagMs, 1)

/-- Feed a sequence of real elapsed-time samples to `Engine._mainloop`,
threading `_lagMs`.  Returns the final `_lagMs`, the total number of
`_update(fixedTimestep)` calls, and the list of `_lagMs` values observed
after each `_mainloop` invocation. -/
def mainloopRun (fuel : ℕ) (fixedUpdateTimestep : Option ℚ) (timescale : ℚ) :
    ℚ → List ℚ → ℚ × ℕ × List ℚ
  | lag, [] => (lag, 0, [])
  | lag, e :: es =>
    let c := engineMainloop fuel fixedUpdateTimestep timescale lag e
    let r := mainloopRun fuel fixedUpdateTimestep timescale c.1 es
    (r.1, c.2 + r.2.1, c.1 :: r.2.2)

/-- One entry of a room's `players` array
(`ServerTransmitEntities`, src/server/server.ts lines 29-32), restricted
to the `networkId` field that `unsubscribeUser` matches on and the `id`
that identifies the entry. -/
structure PlayerEntry where
  networkId : String
  id : String
deriving DecidableEq, Repr

/-- JavaScript `Array.prototype.findIndex`: index of the first match, `-1`
when there is none. -/
def jsFindIndex {α : Type} (p : α → Bool) (l : List α) : ℤ :=
  match l.findIdx? p with
  | none => -1
  | some i => (i : ℤ)

/-- JavaScript `Array.prototype.splice(start, deleteCount)` restricted to
deletion: a negative `start` counts back from the end and clamps at 0, a
too-large `start` clamps at the length; `deleteCount` elements from the
actual start are removed. -/
def jsSplice {α : Type} (l : List α) (start : ℤ) (deleteCount : ℕ) : List α :=
  let len : ℤ := l.length
  let actualStart : ℕ := (if start < 0 then max (len + start) 0 else min start len).toNat
  l.take actualStart ++ l.drop (actualStart + deleteCount)

/-- The `players` mutation of `unsubscribeUser` (src/server/server.ts lines
185-195): `room.players.splice(room.players.findIndex(player =>
player.networkId === userId), 1)`.  (The accompanying `kill()` of the
scene entity does not touch the `players` array and is not modelled.) -/
def unsubscribePlayers (players : List PlayerEntry) (userId : String) : List PlayerEntry :=
  jsSplice players (jsFindIndex (fun pl => pl.networkId == userId) players) 1

/-- A director with two registered, cached scene instances: scene "X"
(identity 0, already initialized and active) and scene "Y" (identity 1,
fresh); the director itself is initialized. -/
def directorXY : DirectorM :=
  { registry := [("X", 0), ("Y", 1)], cache := [("X", 0), ("Y", 1)],
    store := [(0, { isInitialized := true, initCount := 1, activateCount := 1,
                    deactivateCount := 0, lastActivationData := none }), (1, {})],
    currentSceneName := "X", currentScene := 0,
    initialized := true, deferredGoto := none, trace := [] }

/-- A director that has not yet been initialized (as in `new Engine({...})`
before `start()` has finished), with the configuration of `server.ts`:
a root scene and a "main" scene. -/
def directorFresh : DirectorM :=
  { registry := [("root", 0), ("main", 1)], cache := [],
    store := [(0, {}), (1, {})],
    currentSceneName := "root", currentScene := 0,
    initialized := false, deferredGoto := none, trace := [] }

/-- C1: the claim — while `collisionDirection == Top`, a held "up" produces
zero position change, a simultaneously held "left" still moves the actor
left by `playerSpeed`, and later-processed players are unaffected — fails
on the code: the `return` statement on server.ts line 239 aborts the whole
`updateEntities` pass.  On the failing input, player 1 (blocked Top,
holding "up" and "left") is left completely unmoved (its `x` stays 50
instead of moving to 46), and player 2 (holding "right", not colliding) is
also left unmoved (its `x` stays 10 instead of moving to 14). -/
theorem updateEntities_top_block_aborts_whole_pass :
    updateEntities ["p1", "p2"] [blockedPlayer, laterPlayer]
      = some [blockedPlayer, laterPlayer]
    ∧ blockedPlayer.position.x = 50 ∧ laterPlayer.position.x = 10 := by
  exact ⟨rfl, rfl, rfl⟩

/-- C5: moving down by the per-tick speed from (100,100) into the `Fixed`
24×24 box at (100,124) produces a `Side.Bottom` contact, and after
`onCollisionStart`'s resolution runs once for that contact the player's
`position.y` (and `pos.y`) equals exactly 100 = 124 − 24: the boxes end up
exactly adjacent, fully un-overlapped. -/
theorem clientActor_resolution_exact :
    (sceneTick { player := fallingPlayer, npc := fixedNpcAt124 }).1.player.position.y = 100
    ∧ (sceneTick { player := fallingPlayer, npc := fixedNpcAt124 }).1.player.pos.y = 100
    ∧ (sceneTick { player := fallingPlayer, npc := fixedNpcAt124
        }).1.player.collisionData.collisionDirection = Side.Bottom := by
  refine ⟨?_, ?_, ?_⟩ <;> rfl

/-- C2 counterexample: in the tick in which the player collides, the
broadcast snapshot carries y = 100 (the `pos` value from before this
tick's system pass) while the player's post-resolution position is
y = 102 — the snapshot does not equal the post-resolution position of the
same tick, refuting the claim at this concrete input. -/
theorem snapshot_not_post_resolution :
    (sceneTick { player := fallingPlayer, npc := fixedNpcAt126 }).2.y = 100
    ∧ (sceneTick { player := fallingPlayer, npc := fixedNpcAt126 }).1.player.position.y = 102
    ∧ (sceneTick { player := fallingPlayer, npc := fixedNpcAt126 }).2.y
      ≠ (sceneTick { player := fallingPlayer, npc := fixedNpcAt126 }).1.player.position.y := by
  refine ⟨rfl, rfl, ?_⟩
  decide

/-- The movement blocks of `updateEntities` only write `position` (the
transport record), never the actor-base `pos` field. -/
theorem moveRight_pos_eq (p : ClientActor) : ((moveRight p).1).pos = p.pos := by
  unfold moveRight
  split
  · split <;> rfl
  · rfl

theorem moveLeft_pos_eq (p : ClientActor) : ((moveLeft p).1).pos = p.pos := by
  unfold moveLeft
  split
  · split
    · rfl
    · exact moveRight_pos_eq _
  · exact moveRight_pos_eq _

theorem moveDown_pos_eq (p : ClientActor) : ((moveDown p).1).pos = p.pos := by
  unfold moveDown
  split
  · split
    · rfl
    · exact moveLeft_pos_eq _
  · exact moveLeft_pos_eq _

theorem movePlayer_pos_eq (p : ClientActor) : ((movePlayer p).1).pos = p.pos := by
  unfold movePlayer
  split
  · split
    · split
      · rfl
      · exact moveDown_pos_eq _
    · exact moveDown_pos_eq _
  · rfl

/-- C2 (amended): the snapshot broadcast during a tick is built in
`MainScene.onPreUpdate`, which `Scene.update` runs strictly before the
tick's system pass; since the movement pass writes only `position`, the
snapshot always equals the actor's `pos` as it stood at the end of the
previous tick — the previous tick's post-resolution value — and never
reflects the same tick's collision resolution. -/
theorem snapshot_equals_previous_tick_pos (sc : MiniScene) :
    (sceneTick sc).2
      = { x := sc.player.pos.x, y := sc.player.pos.y, z := 0, w := 0 } := by
  show ({ x := ((movePlayer sc.player).1).pos.x, y := ((movePlayer sc.player).1).pos.y,
          z := 0, w := 0 } : Quat) = _
  rw [movePlayer_pos_eq]

/-- `cacheScene` only ever writes the `_sceneToInstance` cache; all other
director fields are untouched. -/
theorem cacheScene_store (d : DirectorM) (s : String) : (cacheScene d s).store = d.store := by
  unfold cacheScene
  split
  · rfl
  · split <;> rfl

theorem cacheScene_trace (d : DirectorM) (s : String) : (cacheScene d s).trace = d.trace := by
  unfold cacheScene
  split
  · rfl
  · split <;> rfl

theorem cacheScene_currentSceneName (d : DirectorM) (s : String) :
    (cacheScene d s).currentSceneName = d.currentSceneName := by
  unfold cacheScene
  split
  · rfl
  · split <;> rfl

theorem cacheScene_currentScene (d : DirectorM) (s : String) :
    (cacheScene d s).currentScene = d.currentScene := by
  unfold cacheScene
  split
  · rfl
  · split <;> rfl

/-- Updating a scene's stored state is visible at its own identity. -/
theorem sceneOf_storeUpdate_self (k : SceneId) (f : SceneM → SceneM)
    (st : List (SceneId × SceneM)) :
    sceneOf (storeUpdate k f st) k = f (sceneOf st k) := by
  induction st with
  | nil => simp [storeUpdate, sceneOf, assocFind]
  | cons hd tl ih =>
    obtain ⟨k', s⟩ := hd
    by_cases h : k' = k
    · subst h
      simp [storeUpdate, sceneOf, assocFind]
    · simp only [storeUpdate, if_neg h, sceneOf, assocFind]
      exact ih

/-- Updating a scene's stored state leaves every other identity's state
unchanged. -/
theorem sceneOf_storeUpdate_ne (k k' : SceneId) (h : k' ≠ k) (f : SceneM → SceneM)
    (st : List (SceneId × SceneM)) :
    sceneOf (storeUpdate k f st) k' = sceneOf st k' := by
  have h' : k ≠ k' := fun hk => h hk.symm
  induction st with
  | nil => simp [storeUpdate, sceneOf, assocFind, h']
  | cons hd tl ih =>
    obtain ⟨k'', s⟩ := hd
    by_cases hk : k'' = k
    · subst hk
      simp [storeUpdate, sceneOf, assocFind, h']
    · by_cases hk2 : k'' = k'
      · subst hk2
        simp [storeUpdate, sceneOf, assocFind, hk]
      · simp only [storeUpdate, if_neg hk, sceneOf, assocFind, if_neg hk2]
        exact ih

/-- Projection facts for the four `swapScene` phases. -/
theorem deactivateStep_trace (d : DirectorM) :
    (deactivateStep d).trace = d.trace
      ++ (if (sceneOf d.store d.currentScene).isInitialized = true
          then [LifeEvent.deactivateCall d.currentScene d.currentSceneName] else []) := by
  unfold deactivateStep
  split
  · rfl
  · simp

theorem deactivateStep_currentScene (d : DirectorM) :
    (deactivateStep d).currentScene = d.currentScene := by
  unfold deactivateStep
  split <;> rfl

theorem deactivateStep_currentSceneName (d : DirectorM) :
    (deactivateStep d).currentSceneName = d.currentSceneName := by
  unfold deactivateStep
  split <;> rfl

theorem deactivateStep_isInitialized (d : DirectorM) (i : SceneId) :
    (sceneOf (deactivateStep d).store i).isInitialized
      = (sceneOf d.store i).isInitialized := by
  unfold deactivateStep
  split
  · show (sceneOf (storeUpdate d.currentScene _ d.store) i).isInitialized = _
    by_cases hi : i = d.currentScene
    · subst hi
      rw [sceneOf_storeUpdate_self]
    · rw [sceneOf_storeUpdate_ne _ _ hi]
  · rfl

theorem pointerStep_trace (d : DirectorM) (n : String) (i : SceneId) :
    (pointerStep d n i).trace = d.trace ++ [LifeEvent.pointerSet n] := rfl

theorem pointerStep_store (d : DirectorM) (n : String) (i : SceneId) :
    (pointerStep d n i).store = d.store := rfl

theorem pointerStep_currentScene (d : DirectorM) (n : String) (i : SceneId) :
    (pointerStep d n i).currentScene = i := rfl

theorem pointerStep_currentSceneName (d : DirectorM) (n : String) (i : SceneId) :
    (pointerStep d n i).currentSceneName = n := rfl

theorem initializeStep_trace (d : DirectorM) :
    (initializeStep d).trace = d.trace
      ++ (if (sceneOf d.store d.currentScene).isInitialized = false
          then [LifeEvent.initializeCall d.currentScene d.currentSceneName] else []) := by
  unfold initializeStep
  split
  · rfl
  · simp

theorem initializeStep_currentScene (d : DirectorM) :
    (initializeStep d).currentScene = d.currentScene := by
  unfold initializeStep
  split <;> rfl

theorem initializeStep_currentSceneName (d : DirectorM) :
    (initializeStep d).currentSceneName = d.currentSceneName := by
  unfold initializeStep
  split <;> rfl

theorem initializeStep_isInitialized_current (d : DirectorM) :
    (sceneOf (initializeStep d).store d.currentScene).isInitialized = true := by
  unfold initializeStep
  split
  · show (sceneOf (storeUpdate d.currentScene _ d.store) d.currentScene).isInitialized = true
    rw [sceneOf_storeUpdate_self]
  · rename_i h
    exact Bool.not_eq_false _ |>.mp h

theorem initializeStep_lastActivationData (d : DirectorM) (i : SceneId) :
    (sceneOf (initializeStep d).store i).lastActivationData
      = (sceneOf d.store i).lastActivationData := by
  unfold initializeStep
  split
  · show (sceneOf (storeUpdate d.currentScene _ d.store) i).lastActivationData = _
    by_cases hi : i = d.currentScene
    · subst hi
      rw [sceneOf_storeUpdate_self]
    · rw [sceneOf_storeUpdate_ne _ _ hi]
  · rfl

theorem activateStep_trace (d : DirectorM) (data : Option ℕ) :
    (activateStep d data).trace
      = d.trace ++ [LifeEvent.activateCall d.currentScene data d.currentSceneName] := rfl

theorem activateStep_currentScene (d : DirectorM) (data : Option ℕ) :
    (activateStep d data).currentScene = d.currentScene := rfl

theorem activateStep_currentSceneName (d : DirectorM) (data : Option ℕ) :
    (activateStep d data).currentSceneName = d.currentSceneName := rfl

theorem activateStep_lastActivationData_current (d : DirectorM) (data : Option ℕ) :
    (sceneOf (activateStep d data).store d.currentScene).lastActivationData = data := by
  show (sceneOf (storeUpdate d.currentScene _ d.store) d.currentScene).lastActivationData = data
  rw [sceneOf_storeUpdate_self]

theorem activateStep_isInitialized (d : DirectorM) (data : Option ℕ) (i : SceneId) :
    (sceneOf (activateStep d data).store i).isInitialized
      = (sceneOf d.store i).isInitialized := by
  show (sceneOf (storeUpdate d.currentScene _ d.store) i).isInitialized = _
  by_cases hi : i = d.currentScene
  · subst hi
    rw [sceneOf_storeUpdate_self]
  · rw [sceneOf_storeUpdate_ne _ _ hi]

/-- Full characterisation of an initialized-director `swapScene` to a
resolvable destination: the produced events are, in order, the previous
scene's deactivation (only if it was initialized, and recorded while the
pointer still names the previous scene), then the pointer swap, then the
destination's initialization (only on first navigation, recorded with the
pointer already naming the destination), then its activation; afterwards
the pointers name the destination and its stored state carries the
supplied activation data. -/
theorem swapScene_spec (d : DirectorM) (dest : String) (data : Option ℕ) (destId : SceneId)
    (hinit : d.initialized = true) (hres : resolveScene d dest = some destId) :
    (swapScene d dest data).trace =
      d.trace
      ++ (if (sceneOf d.store d.currentScene).isInitialized = true
          then [LifeEvent.deactivateCall d.currentScene d.currentSceneName] else [])
      ++ [LifeEvent.pointerSet dest]
      ++ (if (sceneOf d.store destId).isInitialized = false
          then [LifeEvent.initializeCall destId dest] else [])
      ++ [LifeEvent.activateCall destId data dest]
    ∧ (swapScene d dest data).currentSceneName = dest
    ∧ (swapScene d dest data).currentScene = destId
    ∧ (sceneOf (swapScene d dest data).store destId).lastActivationData = data
    ∧ (sceneOf (swapScene d dest data).store destId).isInitialized = true := by
  have hswap : swapScene d dest data
      = activateStep (initializeStep (pointerStep (deactivateStep (cacheScene d dest))
          dest destId)) data := by
    unfold swapScene
    rw [if_neg (by simp [hinit]), hres]
  set C := cacheScene d dest with hC
  set D := deactivateStep C with hD
  set P := pointerStep D dest destId with hP
  set I := initializeStep P with hI
  have hPstore : P.store = D.store := pointerStep_store D dest destId
  have hPcs : P.currentScene = destId := pointerStep_currentScene D dest destId
  have hPcsn : P.currentSceneName = dest := pointerStep_currentSceneName D dest destId
  have hDinitAt : ∀ i, (sceneOf D.store i).isInitialized = (sceneOf d.store i).isInitialized := by
    intro i
    rw [hD, deactivateStep_isInitialized, hC, cacheScene_store]
  have hIcs : I.currentScene = destId := by
    rw [hI, initializeStep_currentScene, hPcs]
  have hIcsn : I.currentSceneName = dest := by
    rw [hI, initializeStep_currentSceneName, hPcsn]
  have hIinit : (sceneOf I.store destId).isInitialized = true := by
    have := initializeStep_isInitialized_current P
    rwa [hPcs, ← hI] at this
  refine ⟨?_, ?_, ?_, ?_, ?_⟩
  · rw [hswap, activateStep_trace, hIcs, hIcsn, hI, initializeStep_trace, hPstore, hPcs,
      hPcsn, hDinitAt, hP, pointerStep_trace, hD, deactivateStep_trace, hC, cacheScene_trace,
      cacheScene_store, cacheScene_currentScene, cacheScene_currentSceneName]
  · rw [hswap, activateStep_currentSceneName, hIcsn]
  · rw [hswap, activateStep_currentScene, hIcs]
  · have := activateStep_lastActivationData_current I data
    rwa [hswap, ← hIcs]
  · rw [hswap, activateStep_isInitialized]
    exact hIinit

/-- C3 counterexample: navigating the concrete director from the
initialized, active scene "X" (identity 0) to the fresh scene "Y"
(identity 1) produces the trace below: the `currentScene` /
`currentSceneName` pointers are assigned (`pointerSet "Y"`) immediately
after X's deactivation and *before* Y's `_initialize` and `_activate` run —
both record the pointer already naming "Y" — refuting the claim that the
pointers are set to Y only after Y's `_initialize` and `_activate` have
resolved. -/
theorem swapScene_pointer_set_before_initialize :
    (swapScene directorXY "Y" none).trace
      = [LifeEvent.deactivateCall 0 "X", LifeEvent.pointerSet "Y",
         LifeEvent.initializeCall 1 "Y", LifeEvent.activateCall 1 none "Y"]
    ∧ LifeEvent.initializeCall 1 "Y" ∈ (swapScene directorXY "Y" none).trace
    ∧ LifeEvent.initializeCall 1 "X" ∉ (swapScene directorXY "Y" none).trace := by
  refine ⟨by decide, by decide, by decide⟩

/-- C3 (amended): for every navigation of an initialized director to a
resolvable destination, the source scene's deactivation completes before
any of the destination's initialization/activation begins, the pointers
still name the source throughout its deactivation (the `deactivateCall`
records the source name), and the pointers are set to the destination
after the deactivation completes but *before* the destination's
`_initialize` and `_activate` run (which record the pointer already naming
the destination). -/
theorem swapScene_deactivate_then_pointer_then_activate
    (d : DirectorM) (dest : String) (data : Option ℕ) (destId : SceneId)
    (hinit : d.initialized = true) (hres : resolveScene d dest = some destId) :
    (swapScene d dest data).trace =
      d.trace
      ++ (if (sceneOf d.store d.currentScene).isInitialized = true
          then [LifeEvent.deactivateCall d.currentScene d.currentSceneName] else [])
      ++ [LifeEvent.pointerSet dest]
      ++ (if (sceneOf d.store destId).isInitialized = false
          then [LifeEvent.initializeCall destId dest] else [])
      ++ [LifeEvent.activateCall destId data dest]
    ∧ (swapScene d dest data).currentSceneName = dest
    ∧ (swapScene d dest data).currentScene = destId := by
  obtain ⟨h1, h2, h3, _, _⟩ := swapScene_spec d dest data destId hinit hres
  exact ⟨h1, h2, h3⟩

/-- Witness for the amended C3 theorem at the concrete director. -/
theorem swapScene_deactivate_then_pointer_then_activate_witness :
    directorXY.initialized = true
    ∧ resolveScene directorXY "Y" = some 1
    ∧ ((swapScene directorXY "Y" none).trace =
        directorXY.trace
        ++ (if (sceneOf directorXY.store directorXY.currentScene).isInitialized = true
            then [LifeEvent.deactivateCall directorXY.currentScene directorXY.currentSceneName]
            else [])
        ++ [LifeEvent.pointerSet "Y"]
        ++ (if (sceneOf directorXY.store 1).isInitialized = false
            then [LifeEvent.initializeCall 1 "Y"] else [])
        ++ [LifeEvent.activateCall 1 none "Y"]
      ∧ (swapScene directorXY "Y" none).currentSceneName = "Y"
      ∧ (swapScene directorXY "Y" none).currentScene = 1) :=
  ⟨rfl, rfl, swapScene_deactivate_then_pointer_then_activate directorXY "Y" none 1 rfl rfl⟩

/-- C6: `goToScene` with a name that resolves to no registered scene logs
a warning and aborts: no lifecycle call happens (the only trace addition
is the log entry), nothing is thrown (the function totalises to a plain
state), and `currentScene`, `currentSceneName`, the registry and every
scene's stored state are unchanged. -/
theorem goToScene_unknown_scene_is_noop (d : DirectorM) (dest : String) (data : Option ℕ)
    (h : resolveScene d dest = none) :
    goToScene d dest data = { d with trace := d.trace ++ [LifeEvent.logWarn dest] }
    ∧ (goToScene d dest data).currentSceneName = d.currentSceneName
    ∧ (goToScene d dest data).currentScene = d.currentScene
    ∧ (goToScene d dest data).registry = d.registry
    ∧ (goToScene d dest data).store = d.store := by
  have he : goToScene d dest data = { d with trace := d.trace ++ [LifeEvent.logWarn dest] } := by
    unfold goToScene
    rw [h]
  exact ⟨he, by rw [he], by rw [he], by rw [he], by rw [he]⟩

/-- Witness for the C6 theorem: `"Z"` is not registered in the concrete
director. -/
theorem goToScene_unknown_scene_witness :
    resolveScene directorXY "Z" = none
    ∧ (goToScene directorXY "Z" none
        = { directorXY with trace := directorXY.trace ++ [LifeEvent.logWarn "Z"] }
      ∧ (goToScene directorXY "Z" none).currentSceneName = directorXY.currentSceneName
      ∧ (goToScene directorXY "Z" none).currentScene = directorXY.currentScene
      ∧ (goToScene directorXY "Z" none).registry = directorXY.registry
      ∧ (goToScene directorXY "Z" none).store = directorXY.store) :=
  ⟨rfl, goToScene_unknown_scene_is_noop directorXY "Z" none rfl⟩

/-- C7: on a fresh scene instance, calling `_initialize` twice (the first
call completing normally) executes the user `onInitialize` override
exactly once, and the second call is a no-op that leaves the scene state
completely unchanged. -/
theorem sceneInitialize_idempotent (s : SceneInitState) (e e' : ℕ)
    (h1 : s.isInitialized = false) (h2 : s.onInitializeCount = 0) :
    sceneInitialize e' (sceneInitialize e s) = sceneInitialize e s
    ∧ (sceneInitialize e' (sceneInitialize e s)).onInitializeCount = 1 := by
  have hfirst : sceneInitialize e s =
      { isInitialized := true, engineRef := some e, physicsConfigured := true,
        systemsInitialized := true, onInitializeCount := s.onInitializeCount + 1,
        childrenInitPasses := s.childrenInitPasses + 1,
        initializeEvents := s.initializeEvents + 1 } := by
    unfold sceneInitialize
    rw [if_pos h1]
  have hsecond : sceneInitialize e' (sceneInitialize e s) = sceneInitialize e s := by
    rw [hfirst]
    unfold sceneInitialize
    rw [if_neg (by simp)]
  exact ⟨hsecond, by rw [hsecond, hfirst, h2]⟩

/-- Witness for the C7 theorem on a fresh scene state. -/
theorem sceneInitialize_idempotent_witness :
    (({} : SceneInitState).isInitialized = false ∧ ({} : SceneInitState).onInitializeCount = 0)
    ∧ (sceneInitialize 8 (sceneInitialize 7 {}) = sceneInitialize 7 {}
      ∧ (sceneInitialize 8 (sceneInitialize 7 {})).onInitializeCount = 1) :=
  ⟨⟨rfl, rfl⟩, sceneInitialize_idempotent {} 7 8 rfl rfl⟩

/-- C10: calling `swapScene` on a not-yet-initialized director only
records the destination in `_deferredGoto` — no lifecycle method runs and
no event is produced — and the deferred navigation performed later by
`Director.onInitialize` calls `swapScene` without the data argument, so
the destination scene is activated with no data: the caller-supplied
activation data is discarded. -/
theorem swapScene_uninitialized_defers_and_drops_data (d : DirectorM) (dest : String) (v : ℕ)
    (destId : SceneId) (h1 : d.initialized = false) (h2 : resolveScene d dest = some destId) :
    swapScene d dest (some v) = { d with deferredGoto := some dest }
    ∧ (swapScene d dest (some v)).trace = d.trace
    ∧ (sceneOf (directorOnInitialize (swapScene d dest (some v))).store destId).lastActivationData
        = none := by
  have hdefer : swapScene d dest (some v) = { d with deferredGoto := some dest } := by
    unfold swapScene
    rw [if_pos h1]
  refine ⟨hdefer, by rw [hdefer], ?_⟩
  rw [hdefer]
  show (sceneOf (directorOnInitialize { d with deferredGoto := some dest }).store
      destId).lastActivationData = none
  unfold directorOnInitialize
  rw [if_pos (show ({ d with deferredGoto := some dest } : DirectorM).initialized = false from h1)]
  show (sceneOf (swapScene { d with initialized := true, deferredGoto := none } dest
      none).store destId).lastActivationData = none
  obtain ⟨_, _, _, h4, _⟩ :=
    swapScene_spec { d with initialized := true, deferredGoto := none } dest none destId rfl h2
  exact h4

/-- Witness for the C10 theorem on the uninitialized director. -/
theorem swapScene_uninitialized_defers_witness :
    directorFresh.initialized = false
    ∧ resolveScene directorFresh "main" = some 1
    ∧ (swapScene directorFresh "main" (some 42)
        = { directorFresh with deferredGoto := some "main" }
      ∧ (swapScene directorFresh "main" (some 42)).trace = directorFresh.trace
      ∧ (sceneOf (directorOnInitialize (swapScene directorFresh "main" (some 42))).store
          1).lastActivationData = none) :=
  ⟨rfl, rfl, swapScene_uninitialized_defers_and_drops_data directorFresh "main" 42 1 rfl rfl⟩

/-- Deleting the bindings of one key from an association list leaves
lookups for any other key unchanged. -/
theorem assocFind_filter_ne (k cur : String) (h : k ≠ cur)
    (l : List (String × SceneId)) :
    assocFind (l.filter (fun kv => !(kv.1 == k))) cur = assocFind l cur := by
  induction l with
  | nil => rfl
  | cons hd tl ih =>
    obtain ⟨k', v⟩ := hd
    by_cases hk' : k' = k
    · subst hk'
      have hcur : k' ≠ cur := h
      simp only [List.filter_cons, beq_self_eq_true, Bool.not_true, Bool.false_eq_true,
        if_false, ih, assocFind, if_neg hcur]
    · have : (!((k', v).1 == k)) = true := by simp [hk']
      simp only [List.filter_cons, this, if_true, assocFind]
      by_cases hc : k' = cur
      · rw [if_pos hc, if_pos hc]
      · rw [if_neg hc, if_neg hc]
        exact ih

/-- The scene-value branch of `Director.remove` always throws when it
reaches the entry registered under the current scene name, keeps that
entry in the registry, and never touches the current name's cache
binding (only other keys' bindings are deleted before the throw). -/
theorem removeByRefGo_spec (i : SceneId) (cur : String) :
    ∀ (reg cache : List (String × SceneId)),
      assocFind reg cur = some i →
      (removeByRefGo i cur cache reg).2.2 = true
      ∧ assocFind (removeByRefGo i cur cache reg).2.1 cur = some i
      ∧ assocFind (removeByRefGo i cur cache reg).1 cur = assocFind cache cur := by
  intro reg
  induction reg with
  | nil =>
    intro cache h
    simp [assocFind] at h
  | cons hd tl ih =>
    intro cache h
    obtain ⟨k, v⟩ := hd
    by_cases hk : k = cur
    · subst hk
      have hv : v = i := by
        have := h
        rw [show assocFind ((k, v) :: tl) k = some v from by simp [assocFind]] at this
        exact Option.some.inj this
      subst hv
      simp [removeByRefGo, assocFind]
    · have h' : assocFind tl cur = some i := by
        have := h
        rw [show assocFind ((k, v) :: tl) cur = assocFind tl cur from by
          simp [assocFind, hk]] at this
        exact this
      by_cases hv : v = i
      · have hrec := ih (cache.filter (fun kv => !(kv.1 == k))) h'
        simp only [removeByRefGo, if_pos hv, if_neg hk]
        refine ⟨hrec.1, hrec.2.1, ?_⟩
        rw [hrec.2.2]
        exact assocFind_filter_ne k cur hk cache
      · have hrec := ih cache h'
        simp only [removeByRefGo, if_neg hv]
        refine ⟨hrec.1, ?_, hrec.2.2⟩
        rw [show assocFind ((k, v) :: (removeByRefGo i cur cache tl).2.1) cur
            = assocFind (removeByRefGo i cur cache tl).2.1 cur from by simp [assocFind, hk]]
        exact hrec.2.1

/-- C8: removing the currently active scene — whether by its registered
name or by the scene value registered under that name — throws
synchronously, and the active scene's registry entry and its
instance-cache binding survive the call. -/
theorem directorRemove_active_scene_throws (d : DirectorM) (v : SceneId)
    (hreg : assocFind d.registry d.currentSceneName = some v) :
    directorRemove d (RemoveArg.byName d.currentSceneName) = (d, true)
    ∧ (directorRemove d (RemoveArg.byRef v)).2 = true
    ∧ assocFind (directorRemove d (RemoveArg.byRef v)).1.registry d.currentSceneName = some v
    ∧ assocFind (directorRemove d (RemoveArg.byRef v)).1.cache d.currentSceneName
        = assocFind d.cache d.currentSceneName := by
  obtain ⟨h1, h2, h3⟩ := removeByRefGo_spec v d.currentSceneName d.registry d.cache hreg
  refine ⟨?_, ?_, ?_, ?_⟩
  · simp [directorRemove]
  · exact h1
  · exact h2
  · exact h3

/-- Witness for the C8 theorem at the concrete director (active scene "X"
is registered with identity 0). -/
theorem directorRemove_active_scene_throws_witness :
    assocFind directorXY.registry directorXY.currentSceneName = some 0
    ∧ (directorRemove directorXY (RemoveArg.byName directorXY.currentSceneName)
        = (directorXY, true)
      ∧ (directorRemove directorXY (RemoveArg.byRef 0)).2 = true
      ∧ assocFind (directorRemove directorXY (RemoveArg.byRef 0)).1.registry
          directorXY.currentSceneName = some 0
      ∧ assocFind (directorRemove directorXY (RemoveArg.byRef 0)).1.cache
          directorXY.currentSceneName
          = assocFind directorXY.cache directorXY.currentSceneName) :=
  ⟨rfl, directorRemove_active_scene_throws directorXY 0 rfl⟩

/-- Accounting for the catch-up loop: the consumed lag equals the produced
update count times the timestep plus the remaining lag; the remaining lag
stays nonnegative; and with enough fuel for the loop to reach its exit
condition the remaining lag is strictly below one timestep. -/
theorem catchUpLoop_spec (fuel : ℕ) :
    ∀ (fixedTimestepMs lag : ℚ), 0 < fixedTimestepMs → 0 ≤ lag →
      lag = (catchUpLoop fuel fixedTimestepMs lag).1
          + ((catchUpLoop fuel fixedTimestepMs lag).2 : ℚ) * fixedTimestepMs
      ∧ 0 ≤ (catchUpLoop fuel fixedTimestepMs lag).1
      ∧ (lag < ((fuel : ℚ) + 1) * fixedTimestepMs →
          (catchUpLoop fuel fixedTimestepMs lag).1 < fixedTimestepMs) := by
  induction fuel with
  | zero =>
    intro T lag hT hlag
    refine ⟨by simp [catchUpLoop], by simpa [catchUpLoop] using hlag, ?_⟩
    intro hb
    have : lag < T := by
      have hb' : lag < 1 * T := by exact_mod_cast hb
      linarith
    simpa [catchUpLoop] using this
  | succ n ih =>
    intro T lag hT hlag
    by_cases h : T ≤ lag
    · obtain ⟨e1, e2, e3⟩ := ih T (lag - T) hT (by linarith)
      simp only [catchUpLoop, if_pos h]
      refine ⟨?_, e2, ?_⟩
      · push_cast
        nlinarith [e1]
      · intro hb
        apply e3
        push_cast at hb ⊢
        linarith
    · simp only [catchUpLoop, if_neg h]
      exact ⟨by simp, hlag, fun _ => lt_of_not_le h⟩

/-- Invariant of feeding samples through `_mainloop` with timescale 1:
total consumed time splits exactly into whole `_update(fixedTimestep)`
calls plus the running lag, and the lag observed after every call stays in
`[0, fixedTimestep)`. -/
theorem mainloopRun_spec (samples : List ℚ) :
    ∀ (T : ℚ) (fuel : ℕ) (lag : ℚ),
      0 < T → 0 ≤ lag → lag < T → (∀ e ∈ samples, 0 ≤ e) →
      lag + samples.sum < ((fuel : ℚ) + 1) * T →
      lag + samples.sum = (mainloopRun fuel (some T) 1 lag samples).1
          + ((mainloopRun fuel (some T) 1 lag samples).2.1 : ℚ) * T
      ∧ 0 ≤ (mainloopRun fuel (some T) 1 lag samples).1
      ∧ (mainloopRun fuel (some T) 1 lag samples).1 < T
      ∧ ∀ l ∈ (mainloopRun fuel (some T) 1 lag samples).2.2, 0 ≤ l ∧ l < T := by
  induction samples with
  | nil =>
    intro T fuel lag hT h0 hlt _ _
    refine ⟨by simp [mainloopRun], by simpa [mainloopRun] using h0,
      by simpa [mainloopRun] using hlt, by simp [mainloopRun]⟩
  | cons e es ih =>
    intro T fuel lag hT h0 hlt hnn hb
    have he : 0 ≤ e := hnn e (List.mem_cons_self e es)
    have hes : ∀ x ∈ es, 0 ≤ x := fun x hx => hnn x (List.mem_cons_of_mem e hx)
    have hsum : 0 ≤ es.sum := List.sum_nonneg hes
    have hb' : lag + (e + es.sum) < ((fuel : ℚ) + 1) * T := by
      simpa [List.sum_cons] using hb
    have hcall : engineMainloop fuel (some T) 1 lag e = catchUpLoop fuel T (lag + e) := by
      simp [engineMainloop]
    obtain ⟨c1, c2, c3⟩ := catchUpLoop_spec fuel T (lag + e) hT (by linarith)
    have hc3 : (catchUpLoop fuel T (lag + e)).1 < T := by
      apply c3
      linarith
    have hcle : (catchUpLoop fuel T (lag + e)).1 ≤ lag + e := by
      have hnonneg : (0 : ℚ) ≤ ((catchUpLoop fuel T (lag + e)).2 : ℚ) * T := by
        have := Nat.cast_nonneg (α := ℚ) (catchUpLoop fuel T (lag + e)).2
        nlinarith
      linarith [c1]
    obtain ⟨r1, r2, r3, r4⟩ := ih T fuel (catchUpLoop fuel T (lag + e)).1 hT c2 hc3 hes
      (by linarith)
    simp only [mainloopRun, hcall]
    refine ⟨?_, r2, r3, ?_⟩
    · rw [List.sum_cons]
      push_cast
      nlinarith [c1, r1]
    · intro l hl
      rcases List.mem_cons.mp hl with h | h
      · subst h
        exact ⟨c2, hc3⟩
      · exact r4 l h

/-- C4: with a positive `fixedUpdateTimestep`, timescale 1 and a starting
lag of 0, every sequence of nonnegative real elapsed-time samples summing
to N × fixedUpdateTimestep produces exactly N `_update(fixedUpdateTimestep)`
calls in total — regardless of how the time is chunked into samples — and
the residual `_lagMs` after every `_mainloop` call lies in
`[0, fixedUpdateTimestep)`, ending at exactly 0. -/
theorem mainloop_fixed_catchup_lossless (T : ℚ) (N fuel : ℕ) (samples : List ℚ)
    (hT : 0 < T) (hnn : ∀ e ∈ samples, 0 ≤ e) (hsum : samples.sum = (N : ℚ) * T)
    (hfuel : N ≤ fuel) :
    (mainloopRun fuel (some T) 1 0 samples).2.1 = N
    ∧ (mainloopRun fuel (some T) 1 0 samples).1 = 0
    ∧ ∀ l ∈ (mainloopRun fuel (some T) 1 0 samples).2.2, 0 ≤ l ∧ l < T := by
  have hfuel' : (N : ℚ) ≤ (fuel : ℚ) := by exact_mod_cast hfuel
  have hb : (0 : ℚ) + samples.sum < ((fuel : ℚ) + 1) * T := by
    rw [hsum]
    nlinarith
  obtain ⟨h1, h2, h3, h4⟩ := mainloopRun_spec samples T fuel 0 hT le_rfl hT hnn hb
  have heq : (N : ℚ) * T = (mainloopRun fuel (some T) 1 0 samples).1
      + ((mainloopRun fuel (some T) 1 0 samples).2.1 : ℚ) * T := by
    rw [← hsum]
    simpa using h1
  have s1 : (N : ℚ) * T < (((mainloopRun fuel (some T) 1 0 samples).2.1 : ℚ) + 1) * T := by
    have hexp : (((mainloopRun fuel (some T) 1 0 samples).2.1 : ℚ) + 1) * T
        = ((mainloopRun fuel (some T) 1 0 samples).2.1 : ℚ) * T + T := by ring
    rw [hexp]
    linarith
  have s2 : (N : ℚ) < ((mainloopRun fuel (some T) 1 0 samples).2.1 : ℚ) + 1 :=
    (mul_lt_mul_right hT).mp s1
  have s3 : ((mainloopRun fuel (some T) 1 0 samples).2.1 : ℚ) * T ≤ (N : ℚ) * T := by
    linarith
  have s4 : ((mainloopRun fuel (some T) 1 0 samples).2.1 : ℚ) ≤ (N : ℚ) :=
    (mul_le_mul_right hT).mp s3
  have htot : (mainloopRun fuel (some T) 1 0 samples).2.1 = N := by
    have hlt : N < (mainloopRun fuel (some T) 1 0 samples).2.1 + 1 := by exact_mod_cast s2
    have hle : (mainloopRun fuel (some T) 1 0 samples).2.1 ≤ N := by exact_mod_cast s4
    omega
  refine ⟨htot, ?_, h4⟩
  rw [htot] at heq
  linarith

/-- Witness for the C4 theorem: timestep 2, samples 3 and 1 (summing to
2 × 2), fuel 2. -/
theorem mainloop_fixed_catchup_lossless_witness :
    (0 : ℚ) < 2
    ∧ (∀ e ∈ ([3, 1] : List ℚ), 0 ≤ e)
    ∧ ([3, 1] : List ℚ).sum = ((2 : ℕ) : ℚ) * 2
    ∧ (2 : ℕ) ≤ 2
    ∧ ((mainloopRun 2 (some 2) 1 0 [3, 1]).2.1 = 2
      ∧ (mainloopRun 2 (some 2) 1 0 [3, 1]).1 = 0
      ∧ ∀ l ∈ (mainloopRun 2 (some 2) 1 0 [3, 1]).2.2, 0 ≤ l ∧ l < 2) :=
  ⟨by norm_num,
   by
    intro e he
    rcases List.mem_cons.mp he with h | h
    · rw [h]; norm_num
    · rcases List.mem_cons.mp h with h2 | h2
      · rw [h2]; norm_num
      · simp at h2,
   by norm_num,
   le_refl 2,
   mainloop_fixed_catchup_lossless 2 2 2 [3, 1] (by norm_num)
     (by
      intro e he
      rcases List.mem_cons.mp he with h | h
      · rw [h]; norm_num
      · rcases List.mem_cons.mp h with h2 | h2
        · rw [h2]; norm_num
        · simp at h2)
     (by norm_num) (le_refl 2)⟩

/-- C9 counterexample: on an existing room whose `players` array is empty
(hence contains no entry matching the user), `splice(-1, 1)` removes
nothing at all — the call does not "still remove one element" as the claim
states for every no-match players list. -/
theorem unsubscribe_empty_players_removes_nothing :
    unsubscribePlayers ([] : List PlayerEntry) "ghost" = []
    ∧ ¬ ((unsubscribePlayers ([] : List PlayerEntry) "ghost").length + 1
        = ([] : List PlayerEntry).length) := by
  constructor
  · rfl
  · simp [unsubscribePlayers, jsFindIndex, jsSplice]

/-- `splice(-1, 1)` deletes exactly the last element (and nothing from an
empty array). -/
theorem jsSplice_neg_one {α : Type} (l : List α) : jsSplice l (-1) 1 = l.dropLast := by
  simp only [jsSplice]
  rw [if_pos (show (-1 : ℤ) < 0 by norm_num)]
  have hstart : (max ((l.length : ℤ) + (-1)) 0).toNat = l.length - 1 := by omega
  rw [hstart]
  cases l with
  | nil => rfl
  | cons a t =>
    have h1 : (a :: t).length - 1 + 1 = (a :: t).length := by
      simp [List.length_cons]
    rw [h1, List.drop_length, List.append_nil, List.dropLast_eq_take]

/-- `splice(i, 1)` at a valid index deletes exactly the element at that
index. -/
theorem jsSplice_at {α : Type} (l : List α) (i : ℕ) (hi : i < l.length) :
    jsSplice l (i : ℤ) 1 = l.take i ++ l.drop (i + 1) := by
  simp only [jsSplice]
  rw [if_neg (show ¬ ((i : ℤ) < 0) by omega)]
  have hstart : (min (i : ℤ) (l.length : ℤ)).toNat = i := by omega
  rw [hstart]

/-- C9 (amended): `unsubscribeUser`'s players splice removes the last
entry whenever no entry matches the user id and the list is nonempty
(`dropLast` of an empty list removes nothing), and removes exactly the
first matching entry when one exists. -/
theorem unsubscribePlayers_splice_spec (players : List PlayerEntry) (userId : String) :
    unsubscribePlayers players userId =
      match players.findIdx? (fun pl => pl.networkId == userId) with
      | none => players.dropLast
      | some i => players.take i ++ players.drop (i + 1) := by
  unfold unsubscribePlayers jsFindIndex
  cases h : players.findIdx? (fun pl => pl.networkId == userId) with
  | none => exact jsSplice_neg_one players
  | some i =>
    have hi : i < players.length := (List.findIdx?_eq_some_iff_findIdx_eq.mp h).1
    exact jsSplice_at players i hi
